import Mathlib

/-!
Verification development for the Japanese audio subtitle pipeline.

The definitions below are a shallow embedding of the server-side pipeline:
the processing orchestrator (`processAudioFile` in the routes module), the
translation service (`translation.ts`), the transcription normalization
(`audio-processor.ts`), the in-memory store (`storage.ts`) and the SRT
export helpers (`generateSRT`, `formatSRTTime`).

External effects are made explicit:
* the OpenAI transcription / translation calls are oracles supplied as
  function parameters (`Nat → Except String _`, indexed by attempt number);
* file-system operations and per-action store failures are boolean fields
  of an `Env` record;
* the observable side effects of a pipeline run (progress writes, status
  writes, broadcasts, persisted subtitles, deletion attempts) are collected
  in a `RunTrace` record.

JavaScript numbers that are only ever integral in this code base (times in
milliseconds, durations in seconds, identifiers) are modelled as `Nat`;
the translation confidence (0.95 / 0) is modelled as `ℚ`.
-/

deriving instance DecidableEq for Except

namespace JSub

/-- A transcribed, time-bounded span of source-language text, with start and
end offsets in milliseconds (`end` is a Lean keyword, so the field is named
`stop`). Mirrors the segment shape used by the orchestrator. -/
structure Segment where
  start : Nat
  stop : Nat
  text : String
  deriving DecidableEq

/-- Normalized transcription output (`TranscriptionResult` in
`audio-processor.ts`): full text, duration in seconds (0 when the provider
reported none), and the list of timed segments ([] when the provider
returned none). -/
structure TranscriptionResult where
  text : String
  duration : Nat
  segments : List Segment
  deriving DecidableEq

/-- The `TranslationResult` shape of `translation.ts`: original text, translated text,
confidence score. -/
structure TranslationResult where
  originalText : String
  translatedText : String
  confidence : ℚ
  deriving DecidableEq

/-- The field values passed to `storage.createSubtitle` by the orchestrator. -/
structure SubtitleRow where
  audioFileId : Nat
  startTime : Nat
  endTime : Nat
  japaneseText : String
  englishText : String
  deriving DecidableEq

/-- Whether the character list `l` starts with the character list `p`. -/
def listStartsWith : List Char → List Char → Bool
  | _, [] => true
  | [], _ :: _ => false
  | c :: cs, p :: ps => c == p && listStartsWith cs ps

/-- Auxiliary scan for `strContains`. -/
def strContainsAux (pat : List Char) : List Char → Bool
  | [] => pat.isEmpty
  | c :: cs => listStartsWith (c :: cs) pat || strContainsAux pat cs

/-- JavaScript `s.includes(pat)`: substring containment. -/
def strContains (s pat : String) : Bool :=
  strContainsAux pat.toList s.toList

/-- JavaScript `String.prototype.trim()`: strip leading and trailing
whitespace (structurally recursive, unlike `String.trim`, so that concrete
runs evaluate inside the kernel). -/
def jsTrim (s : String) : String :=
  String.mk
    (((s.toList.dropWhile Char.isWhitespace).reverse.dropWhile
        Char.isWhitespace).reverse)

/-- The 0.95 confidence attached to a successful translation, as the reduced
rational 19/20 (spelled as a raw structure literal so that comparisons
against it evaluate inside the kernel). -/
def conf095 : ℚ := ⟨19, 20, by decide, by decide⟩

/-- The instrumented outcome of one of the retry loops: how many attempts
were performed, the back-off waits (in milliseconds) that were slept between
attempts, and the final result. -/
structure RetryTrace (α : Type) where
  attempts : Nat
  waits : List Nat
  result : Except String α
  deriving DecidableEq

/-- One step of the shared retry-loop shape
(`while (retryCount < maxRetries) { try ... catch { retryCount++; if
(retryCount >= maxRetries) throw wrap(message); sleep(2^retryCount * 1000) } }`
with `maxRetries = 3`). `fuel` is `maxRetries - retryCount`, so the loop
terminates structurally; the `fuel = 0` case is the unreachable fall-through
after the `while`. -/
def retryGo (step : Nat → Except String α) (wrap : String → String)
    (exhaustMsg : String) : Nat → Nat → Nat → List Nat → RetryTrace α
  | 0, _, att, ws => ⟨att, ws, .error exhaustMsg⟩
  | fuel + 1, rc, att, ws =>
    match step rc with
    | .ok a => ⟨att + 1, ws, .ok a⟩
    | .error m =>
      if 3 ≤ rc + 1 then ⟨att + 1, ws, .error (wrap m)⟩
      else retryGo step wrap exhaustMsg fuel (rc + 1) (att + 1)
        (ws ++ [2 ^ (rc + 1) * 1000])

/-- Run a retry loop from `retryCount = 0` with `maxRetries = 3`. -/
def retryRun (step : Nat → Except String α) (wrap : String → String)
    (exhaustMsg : String) : RetryTrace α :=
  retryGo step wrap exhaustMsg 3 0 0 []

/-- The error-message mapping applied by `translateWithOpenAI` once the
retries are exhausted (`translation.ts`, lines 92-109). -/
def translationWrapMsg (m : String) : String :=
  if strContains m "API key" then
    "OpenAI API key is invalid or missing. Please check your configuration."
  else if strContains m "quota" then
    "OpenAI API quota exceeded. Please check your usage limits."
  else if strContains m "rate limit" then
    "Rate limit exceeded. Please try again in a few moments."
  else "Failed to translate text: " ++ m

/-- The body of one `try` block of `translateWithOpenAI`: `resp` is the
oracle's outcome for this attempt (modelling the OpenAI chat call together
with its response decoding — a missing choice, empty content, bad JSON or
missing `translation` field are all `.error` outcomes of the oracle); the
visible validation trims the translation and rejects an empty one. -/
def attemptTranslate (resp : Except String String) (text : String) :
    Except String TranslationResult :=
  match resp with
  | .error m => .error m
  | .ok raw =>
    let translatedText := jsTrim raw
    if translatedText.length = 0 then .error "Empty translation received"
    else .ok ⟨text, translatedText, conf095⟩

/-- Model of `TranslationService.translateWithOpenAI`: per-attempt oracle `op`,
retried up to 3 times with exponential back-off. -/
def translateWithOpenAI (op : Nat → Except String String) (text : String) :
    RetryTrace TranslationResult :=
  retryRun (fun k => attemptTranslate (op k) text) translationWrapMsg
    "Translation failed after all retries"

/-- Model of `TranslationService.translateText`: input validation (empty text,
texts longer than 4000 characters) before any provider call; the
`attempts` field counts provider calls. -/
def translateTextRun (op : Nat → Except String String) (text : String) :
    RetryTrace TranslationResult :=
  if (jsTrim text).length = 0 then
    ⟨0, [], .error "Text to translate is required and cannot be empty"⟩
  else if 4000 < text.length then
    ⟨0, [], .error "Text is too long for translation. Maximum length is 4000 characters."⟩
  else translateWithOpenAI op text

/-- The fallback result substituted for an item whose translation permanently
failed (`translation.ts`, lines 139-143). -/
def fallbackResult (text : String) : TranslationResult :=
  ⟨text, "[Translation failed: " ++ text ++ "]", 0⟩

/-- One item of the batch map (`translation.ts`, lines 133-145): translate,
and on failure return the fallback result instead of propagating. -/
def translateItem (op : Nat → Except String String) (text : String) :
    TranslationResult :=
  match (translateTextRun op text).result with
  | .ok r => r
  | .error _ => fallbackResult text

/-- The per-item results of a batch over the already-validated texts: item
`i` uses the oracle `op i`. -/
def batchResults (op : Nat → Nat → Except String String)
    (texts : List String) : List TranslationResult :=
  texts.enum.map fun p => translateItem (op p.1) p.2

/-- Model of `TranslationService.translateBatch`: reject an empty batch, drop blank
texts, translate each remaining text independently (failures become
fallback results), and fail only when no result has confidence above 0. -/
def translateBatch (op : Nat → Nat → Except String String)
    (texts : List String) : Except String (List TranslationResult) :=
  if texts.isEmpty then .error "No texts provided for batch translation"
  else
    let validTexts := texts.filter fun t => jsTrim t != ""
    if validTexts.isEmpty then .error "No valid texts found for translation"
    else
      let translations := batchResults op validTexts
      let successfulTranslations :=
        translations.filter fun t => decide (0 < t.confidence)
      if successfulTranslations.isEmpty then
        .error "All translations failed. Please check your OpenAI API key and quota."
      else .ok translations

/-- A raw provider segment (seconds, as returned by the transcription
provider before normalization). -/
structure RawSegment where
  start : Nat
  stop : Nat
  text : String
  deriving DecidableEq

/-- The provider's verbose transcription response: text, duration (0 when
absent, mirroring `transcription.duration || 0`) and an optional segment
list. -/
structure ProviderTranscription where
  text : String
  duration : Nat
  segments : Option (List RawSegment)
  deriving DecidableEq

/-- The normalization performed by `AudioProcessor.transcribeAudio` on a
successful provider response (`audio-processor.ts`, lines 89-97): convert
segment times to non-negative milliseconds, and replace a missing segment
list with `[]`. -/
def normalizeTranscription (p : ProviderTranscription) : TranscriptionResult :=
  { text := p.text
    duration := p.duration
    segments :=
      match p.segments with
      | none => []
      | some segs =>
        segs.map fun s => ⟨max 0 (s.start * 1000), max 0 (s.stop * 1000), s.text⟩ }

/-- The transcription retry of the orchestrator (`processAudioFile`,
lines 197-221): the same loop shape, with the exhausted error wrapped as
`Transcription failed after 3 attempts: <last message>`; the fall-through
`if (!transcriptionResult)` check is the `exhaustMsg`. -/
def transcribeWithRetry (op : Nat → Except String TranscriptionResult) :
    RetryTrace TranscriptionResult :=
  retryRun op (fun m => "Transcription failed after 3 attempts: " ++ m)
    "Transcription failed: No result obtained"

/-- The segment list the orchestrator translates (`processAudioFile`,
lines 256-262): the provider's segments when there is at least one, else a
single synthesized whole-file segment. -/
def computeSegments (tr : TranscriptionResult) : List Segment :=
  if 0 < tr.segments.length then tr.segments
  else
    [⟨0, (if tr.duration = 0 then 30 else tr.duration) * 1000,
      if tr.text = "" then "No transcription available" else tr.text⟩]

/-- The subtitle row built for one (segment, translation) pair
(`processAudioFile`, lines 311-317). A `Nat` field is its own `x || 0`
default; `segment.end || 1000` becomes 1000 exactly when `stop = 0`. -/
def assembleSubtitle (audioFileId : Nat) (segment : Segment)
    (translation : TranslationResult) : SubtitleRow :=
  { audioFileId
    startTime := max 0 segment.start
    endTime := max segment.start (if segment.stop = 0 then 1000 else segment.stop)
    japaneseText := if segment.text = "" then "No text" else segment.text
    englishText :=
      if translation.translatedText = "" then "No translation"
      else translation.translatedText }

/-- A broadcast status event (type, stage, progress, status, error). -/
structure BMsg where
  type : String
  stage : Option String
  progress : Option Nat
  status : Option String
  error : Option String
  deriving DecidableEq

/-- A `processing-update` broadcast. -/
def bUpd (stage : String) (progress : Nat) : BMsg :=
  ⟨"processing-update", some stage, some progress, some "processing", none⟩

/-- The `processing-complete` broadcast. -/
def bComplete : BMsg :=
  ⟨"processing-complete", some "completed", some 100, some "completed", none⟩

/-- A `processing-error` broadcast carrying the captured error message. -/
def bError (e : String) : BMsg :=
  ⟨"processing-error", none, none, none, some e⟩

/-- The external world of one `processAudioFile` run: oracle outcomes of the
provider calls, file-system behavior, and which failure-handler actions
throw. -/
structure Env where
  fileExists : Bool
  transcribeAttempt : Nat → Except String TranscriptionResult
  translate : Nat → Nat → Except String String
  createSubtitleFails : Nat → Bool
  unlinkFails : Bool
  unlinkError : String
  activeJobExists : Bool
  failUpdateFileThrows : Bool
  failUpdateJobThrows : Bool
  failBroadcastThrows : Bool
  failCleanupThrows : Bool
  fileExistsAtCleanup : Bool

/-- The observable side effects of a `processAudioFile` run. -/
structure RunTrace where
  progressWrites : List Nat
  fileStatuses : List String
  broadcasts : List BMsg
  subtitles : List SubtitleRow
  jobFailedErrors : List String
  unlinkAttempts : Nat
  actionsAttempted : List String
  jobCreated : Bool
  deriving DecidableEq

/-- The trace before anything has happened. -/
def emptyTrace : RunTrace := ⟨[], [], [], [], [], 0, [], false⟩

/-- The subtitle-creation loop (`processAudioFile`, lines 304-322): one row
per index below `min(segments.length, validTranslations.length)`, skipping
(and only skipping) the indices whose `createSubtitle` call throws. -/
def assembleRange (env : Env) (audioFileId : Nat) (segments : List Segment)
    (validTranslations : List TranslationResult) : List SubtitleRow :=
  (List.range (min segments.length validTranslations.length)).filterMap fun i =>
    match segments.get? i, validTranslations.get? i with
    | some seg, some tr =>
      if env.createSubtitleFails i then none
      else some (assembleSubtitle audioFileId seg tr)
    | _, _ => none

/-- The `try` body of `processAudioFile` (lines 170-341): the straight-line
pipeline up to (and including) the final `fs.unlinkSync`. Returns the trace
of effects performed so far together with the thrown error, if any. Each
exit point spells out the accumulated trace. -/
def runMain (env : Env) (audioFileId : Nat) (filePath : String) :
    RunTrace × Option String :=
  if audioFileId = 0 ∨ filePath = "" then
    (emptyTrace, some "Invalid parameters: audioFileId and filePath are required")
  else if env.fileExists = false then
    (emptyTrace, some "Audio file not found")
  else
    let t0 : RunTrace :=
      { emptyTrace with
          progressWrites := [0]
          broadcasts := [bUpd "transcription" 0]
          jobCreated := true }
    match (transcribeWithRetry env.transcribeAttempt).result with
    | .error m => (t0, some m)
    | .ok transcriptionResult =>
      let t1 : RunTrace :=
        { t0 with
            fileStatuses := ["transcribing"]
            progressWrites := [0, 50, 60]
            broadcasts := t0.broadcasts ++ [bUpd "transcription" 50, bUpd "translation" 60] }
      let segments := computeSegments transcriptionResult
      if segments.length = 0 then
        (t1, some "No audio segments found to translate")
      else
        let translationTexts := (segments.map (·.text)).filter fun t => jsTrim t != ""
        if translationTexts.length = 0 then
          (t1, some "No valid text found for translation")
        else
          match translateBatch env.translate translationTexts with
          | .error m => (t1, some ("Translation failed: " ++ m))
          | .ok translations =>
            let t2 : RunTrace :=
              { t1 with
                  progressWrites := [0, 50, 60, 80]
                  broadcasts := t1.broadcasts ++ [bUpd "subtitle_generation" 80] }
            let validTranslations := translations.filter fun t => t.translatedText != ""
            if validTranslations.length = 0 then
              (t2, some "No valid translations generated")
            else
              let t3 : RunTrace :=
                { t2 with
                    subtitles := assembleRange env audioFileId segments validTranslations
                    fileStatuses := t2.fileStatuses ++ ["completed"]
                    progressWrites := [0, 50, 60, 80, 100]
                    broadcasts := t2.broadcasts ++ [bComplete]
                    unlinkAttempts := 1 }
              if env.unlinkFails then (t3, some env.unlinkError) else (t3, none)

/-- One guarded recovery step of the failure handler: record the attempt,
run the action, and swallow (log-only) any error it throws. -/
def tryStep (t : RunTrace) (name : String)
    (act : RunTrace → Except String RunTrace) : RunTrace :=
  let t1 := { t with actionsAttempted := t.actionsAttempted ++ [name] }
  match act t1 with
  | .ok t2 => t2
  | .error _ => t1

/-- The `catch` block of `processAudioFile` (lines 343-387): four
independently guarded recovery actions — mark the audio file failed, mark
the job failed with the captured message, broadcast `processing-error`,
delete the file if it still exists. `e` is the captured error. -/
def applyFailureHandler (env : Env) (e : String) (t : RunTrace) : RunTrace :=
  let tA := tryStep t "updateAudioFileStatus" fun u =>
    if env.failUpdateFileThrows then .error "store unreachable"
    else .ok { u with fileStatuses := u.fileStatuses ++ ["failed"] }
  let tB := tryStep tA "updateProcessingJob" fun u =>
    if env.failUpdateJobThrows then .error "store unreachable"
    else if env.activeJobExists || u.jobCreated then
      .ok { u with jobFailedErrors := u.jobFailedErrors ++ [e] }
    else .ok u
  let tC := tryStep tB "broadcastError" fun u =>
    if env.failBroadcastThrows then .error "socket failure"
    else .ok { u with broadcasts := u.broadcasts ++ [bError e] }
  let tD := tryStep tC "cleanupFile" fun u =>
    if env.failCleanupThrows then .error "fs failure"
    else if env.fileExistsAtCleanup then
      .ok { u with unlinkAttempts := u.unlinkAttempts + 1 }
    else .ok u
  tD

/-- Model of `processAudioFile`: run the pipeline body; if it threw, run the failure
handler on the captured error. -/
def processAudioFile (env : Env) (audioFileId : Nat) (filePath : String) :
    RunTrace :=
  match runMain env audioFileId filePath with
  | (t, none) => t
  | (t, some e) => applyFailureHandler env e t

/-- JavaScript `s.padStart(n, '0')`. -/
def padStartZero (s : String) (n : Nat) : String :=
  if n ≤ s.length then s
  else String.mk (List.replicate (n - s.length) '0') ++ s

/-- Model of `formatSRTTime` (routes module, lines 399-407): milliseconds to
`HH:MM:SS,mmm`, all fields zero-padded. -/
def formatSRTTime (milliseconds : Nat) : String :=
  let totalSeconds := milliseconds / 1000
  let hours := totalSeconds / 3600
  let minutes := (totalSeconds % 3600) / 60
  let seconds := totalSeconds % 60
  let ms := milliseconds % 1000
  padStartZero (toString hours) 2 ++ ":" ++ padStartZero (toString minutes) 2
    ++ ":" ++ padStartZero (toString seconds) 2 ++ "," ++ padStartZero (toString ms) 3

/-- Model of `generateSRT` (routes module, lines 390-397): one block per subtitle —
1-based index line, timestamp line, English text line, trailing newline —
joined with a newline (yielding a blank separator line between entries). -/
def generateSRT (subtitles : List SubtitleRow) : String :=
  String.intercalate "\n" (subtitles.enum.map fun p =>
    toString (p.1 + 1) ++ "\n" ++ formatSRTTime p.2.startTime ++ " --> "
      ++ formatSRTTime p.2.endTime ++ "\n" ++ p.2.englishText ++ "\n")

/-- An `AudioFile` record of the in-memory store (`shared/schema.ts`);
`createdAt` is modelled as a `Nat` timestamp. -/
structure AudioFileRec where
  id : Nat
  filename : String
  originalName : String
  duration : Option Nat
  status : String
  createdAt : Nat
  deriving DecidableEq

/-- A `Subtitle` record of the in-memory store. -/
structure SubtitleRec where
  id : Nat
  audioFileId : Nat
  startTime : Nat
  endTime : Nat
  japaneseText : String
  englishText : String
  createdAt : Nat
  deriving DecidableEq

/-- A `ProcessingJob` record of the in-memory store. -/
structure ProcessingJobRec where
  id : Nat
  audioFileId : Nat
  stage : String
  progress : Nat
  status : String
  error : Option String
  createdAt : Nat
  updatedAt : Nat
  deriving DecidableEq

/-- A `Partial<Subtitle>` update object: present fields override. -/
structure SubtitlePatch where
  japaneseText : Option String
  englishText : Option String
  startTime : Option Nat
  endTime : Option Nat
  deriving DecidableEq

/-- A `Partial<ProcessingJob>` update object: present fields override. -/
structure ProcessingJobPatch where
  stage : Option String
  progress : Option Nat
  status : Option String
  error : Option (Option String)
  deriving DecidableEq

/-- Model of `MemStorage` (`storage.ts`): three id-keyed maps (modelled as
association lists) plus the id counters. -/
structure MemStorage where
  audioFiles : List (Nat × AudioFileRec)
  subtitles : List (Nat × SubtitleRec)
  processingJobs : List (Nat × ProcessingJobRec)
  currentAudioFileId : Nat
  currentSubtitleId : Nat
  currentJobId : Nat
  deriving DecidableEq

/-- JavaScript `Map.set`: replace the entry when the key is present, append otherwise. -/
def mapSet (m : List (Nat × α)) (k : Nat) (v : α) : List (Nat × α) :=
  if (m.lookup k).isSome then m.map fun p => if p.1 = k then (k, v) else p
  else m ++ [(k, v)]

/-- Model of `MemStorage.updateAudioFileStatus` (lines 48-54): look the record up,
and silently do nothing when it is absent. -/
def updateAudioFileStatus (s : MemStorage) (id : Nat) (status : String) :
    MemStorage :=
  match s.audioFiles.lookup id with
  | none => s
  | some audioFile =>
    { s with audioFiles := mapSet s.audioFiles id { audioFile with status } }

/-- JavaScript `Object.assign(subtitle, updates)`. -/
def applySubtitlePatch (r : SubtitleRec) (p : SubtitlePatch) : SubtitleRec :=
  { r with
      japaneseText := p.japaneseText.getD r.japaneseText
      englishText := p.englishText.getD r.englishText
      startTime := p.startTime.getD r.startTime
      endTime := p.endTime.getD r.endTime }

/-- Model of `MemStorage.updateSubtitle` (lines 80-86): look the record up, and
silently do nothing when it is absent. -/
def updateSubtitle (s : MemStorage) (id : Nat) (updates : SubtitlePatch) :
    MemStorage :=
  match s.subtitles.lookup id with
  | none => s
  | some subtitle =>
    { s with
        subtitles := mapSet s.subtitles id (applySubtitlePatch subtitle updates) }

/-- JavaScript `Object.assign(job, updates)`. -/
def applyJobPatch (r : ProcessingJobRec) (p : ProcessingJobPatch) :
    ProcessingJobRec :=
  { r with
      stage := p.stage.getD r.stage
      progress := p.progress.getD r.progress
      status := p.status.getD r.status
      error := p.error.getD r.error }

/-- Model of `MemStorage.updateProcessingJob` (lines 108-115): look the record up,
apply the updates and refresh `updatedAt` (`now` models `new Date()`), and
silently do nothing when the record is absent. -/
def updateProcessingJob (s : MemStorage) (id : Nat)
    (updates : ProcessingJobPatch) (now : Nat) : MemStorage :=
  match s.processingJobs.lookup id with
  | none => s
  | some job =>
    { s with
        processingJobs :=
          mapSet s.processingJobs id
            { applyJobPatch job updates with updatedAt := now } }

/-- A concrete batch oracle: item 0 translates to "x", every other item
always fails. -/
def wOp : Nat → Nat → Except String String :=
  fun i _ => if i = 0 then .ok "x" else .error "boom"

/-- A 4001-character text, longer than the 4000-character limit. -/
def bigText : String := String.mk (List.replicate 4001 'a')

/-- An environment in which every external operation succeeds. -/
def envHappy : Env :=
  { fileExists := true
    transcribeAttempt := fun _ => .ok ⟨"hi", 5, [⟨0, 1500, "hi"⟩]⟩
    translate := fun _ _ => .ok "hello"
    createSubtitleFails := fun _ => false
    unlinkFails := false
    unlinkError := "EACCES: permission denied, unlink"
    activeJobExists := true
    failUpdateFileThrows := false
    failUpdateJobThrows := false
    failBroadcastThrows := false
    failCleanupThrows := false
    fileExistsAtCleanup := false }

/-- An environment in which every stage succeeds but the final
`fs.unlinkSync` throws. -/
def envHappyUnlinkFail : Env := { envHappy with unlinkFails := true }

/-- An environment in which the failure handler's first recovery action
(marking the audio file failed) throws and the others succeed. -/
def envOnlyFileThrow : Env :=
  { envHappy with failUpdateFileThrows := true, fileExistsAtCleanup := true }

section Lemmas

/-- Helper: a successful retry outcome comes from some successful attempt. -/
theorem retryGo_ok_exists_step (step : Nat → Except String α)
    (wrap : String → String) (ex : String) :
    ∀ fuel rc att ws a,
      (retryGo step wrap ex fuel rc att ws).result = .ok a →
      ∃ k, step k = .ok a := by
  intro fuel
  induction fuel with
  | zero => intro rc att ws a h; simp [retryGo] at h
  | succ n ih =>
    intro rc att ws a h
    unfold retryGo at h
    cases hs : step rc with
    | ok b =>
      rw [hs] at h
      simp at h
      exact ⟨rc, by rw [hs, h]⟩
    | error m =>
      rw [hs] at h
      dsimp at h
      split at h
      · simp at h
      · exact ih _ _ _ _ h

/-- Helper: every batch item carries its original text. -/
theorem translateItem_originalText (op : Nat → Except String String)
    (text : String) : (translateItem op text).originalText = text := by
  unfold translateItem
  cases hres : (translateTextRun op text).result with
  | error m => simp [fallbackResult]
  | ok r =>
    have hex : ∃ k, attemptTranslate (op k) text = .ok r := by
      unfold translateTextRun at hres
      split at hres
      · simp at hres
      · split at hres
        · simp at hres
        · exact retryGo_ok_exists_step _ _ _ 3 0 0 [] r hres
    obtain ⟨k, hk⟩ := hex
    unfold attemptTranslate at hk
    cases hop : op k with
    | error m => rw [hop] at hk; simp at hk
    | ok raw =>
      rw [hop] at hk
      dsimp at hk
      split at hk
      · simp at hk
      · simp at hk
        rw [← hk]

/-- Helper: the batch produces one result per input text. -/
theorem batchResults_length (op : Nat → Nat → Except String String)
    (texts : List String) : (batchResults op texts).length = texts.length := by
  simp [batchResults]

/-- Helper: the i-th batch result is the i-th text's item result. -/
theorem batchResults_get? (op : Nat → Nat → Except String String)
    (texts : List String) (i : Nat) :
    (batchResults op texts).get? i
      = (texts.get? i).map fun t => translateItem (op i) t := by
  simp only [batchResults]
  rw [List.get?_map, List.get?_enum]
  cases texts.get? i <;> simp

/-- Helper: the batch results carry the original texts in order. -/
theorem batchResults_map_originalText (op : Nat → Nat → Except String String)
    (texts : List String) :
    (batchResults op texts).map (·.originalText) = texts := by
  simp only [batchResults, List.map_map]
  have h : ∀ p ∈ texts.enum,
      ((fun r => r.originalText) ∘ fun p => translateItem (op p.1) p.2) p
        = Prod.snd p := by
    intro p _
    exact translateItem_originalText (op p.1) p.2
  rw [List.map_congr_left h, List.enum_map_snd]

end Lemmas

section HandlerLemmas

/-- Helper: the failure handler attempts all four recovery actions, in
order, whatever throws. -/
theorem handler_actions (env : Env) (e : String) (t : RunTrace) :
    (applyFailureHandler env e t).actionsAttempted
      = t.actionsAttempted
        ++ ["updateAudioFileStatus", "updateProcessingJob", "broadcastError",
            "cleanupFile"] := by
  obtain ⟨fe, ta, trn, cs, uf, ue, aj, f1, f2, f3, f4, fc⟩ := env
  obtain ⟨pw, fs, bc, su, je, ua, aa, jc⟩ := t
  cases f1 <;> cases f2 <;> cases f3 <;> cases f4 <;> cases fc <;> cases aj <;>
    cases jc <;> simp [applyFailureHandler, tryStep]

/-- Helper: the handler never touches the progress writes. -/
theorem handler_progress (env : Env) (e : String) (t : RunTrace) :
    (applyFailureHandler env e t).progressWrites = t.progressWrites := by
  obtain ⟨fe, ta, trn, cs, uf, ue, aj, f1, f2, f3, f4, fc⟩ := env
  obtain ⟨pw, fs, bc, su, je, ua, aa, jc⟩ := t
  cases f1 <;> cases f2 <;> cases f3 <;> cases f4 <;> cases fc <;> cases aj <;>
    cases jc <;> simp [applyFailureHandler, tryStep]

/-- Helper: when marking the audio file failed does not throw, the handler
appends the `failed` status write, whatever the other actions do. -/
theorem handler_fileStatuses_ok (env : Env) (e : String) (t : RunTrace)
    (h : env.failUpdateFileThrows = false) :
    (applyFailureHandler env e t).fileStatuses = t.fileStatuses ++ ["failed"] := by
  obtain ⟨fe, ta, trn, cs, uf, ue, aj, f1, f2, f3, f4, fc⟩ := env
  cases f1
  · obtain ⟨pw, fs, bc, su, je, ua, aa, jc⟩ := t
    cases f2 <;> cases f3 <;> cases f4 <;> cases fc <;> cases aj <;> cases jc <;>
      simp [applyFailureHandler, tryStep]
  · exact absurd h (by simp)

/-- Helper: when the error broadcast does not throw, the handler broadcasts
`processing-error` carrying the captured error, whatever the other actions
do. -/
theorem handler_broadcasts_ok (env : Env) (e : String) (t : RunTrace)
    (h : env.failBroadcastThrows = false) :
    (applyFailureHandler env e t).broadcasts = t.broadcasts ++ [bError e] := by
  obtain ⟨fe, ta, trn, cs, uf, ue, aj, f1, f2, f3, f4, fc⟩ := env
  cases f3
  · obtain ⟨pw, fs, bc, su, je, ua, aa, jc⟩ := t
    cases f1 <;> cases f2 <;> cases f4 <;> cases fc <;> cases aj <;> cases jc <;>
      simp [applyFailureHandler, tryStep]
  · exact absurd h (by simp)

/-- Helper: when the job update does not throw and a job record is found,
the handler records the captured error on the job, whatever the other
actions do. -/
theorem handler_jobErrors_ok (env : Env) (e : String) (t : RunTrace)
    (h : env.failUpdateJobThrows = false)
    (hfound : (env.activeJobExists || t.jobCreated) = true) :
    (applyFailureHandler env e t).jobFailedErrors = t.jobFailedErrors ++ [e] := by
  obtain ⟨fe, ta, trn, cs, uf, ue, aj, f1, f2, f3, f4, fc⟩ := env
  obtain ⟨pw, fs, bc, su, je, ua, aa, jc⟩ := t
  cases f2
  · simp at hfound
    cases f1 <;> cases f3 <;> cases f4 <;> cases fc <;>
      rcases hfound with hj | hj <;> subst hj <;>
      simp [applyFailureHandler, tryStep]
  · exact absurd h (by simp)

/-- Helper: when the cleanup action does not throw and the transient file
still exists, the handler attempts the deletion, whatever the other actions
do. -/
theorem handler_unlink_ok (env : Env) (e : String) (t : RunTrace)
    (h : env.failCleanupThrows = false) (hex : env.fileExistsAtCleanup = true) :
    (applyFailureHandler env e t).unlinkAttempts = t.unlinkAttempts + 1 := by
  obtain ⟨fe, ta, trn, cs, uf, ue, aj, f1, f2, f3, f4, fc⟩ := env
  obtain ⟨pw, fs, bc, su, je, ua, aa, jc⟩ := t
  cases f4
  · simp at hex
    subst hex
    cases f1 <;> cases f2 <;> cases f3 <;> cases aj <;> cases jc <;>
      simp [applyFailureHandler, tryStep]
  · exact absurd h (by simp)

end HandlerLemmas

/-- Helper: a retry loop whose first three attempts all fail performs
exactly 3 attempts, waits 2^1 and 2^2 seconds (recorded in milliseconds)
after the first and second failed attempts, and surfaces the wrap of the
last failure. -/
theorem retryRun_all_fail (step : Nat → Except String α)
    (wrap : String → String) (ex : String) (m0 m1 m2 : String)
    (h0 : step 0 = .error m0) (h1 : step 1 = .error m1)
    (h2 : step 2 = .error m2) :
    retryRun step wrap ex = ⟨3, [2 ^ 1 * 1000, 2 ^ 2 * 1000], .error (wrap m2)⟩ := by
  simp [retryRun, retryGo, h0, h1, h2]

/-- C3 (amended): on an operation that fails on every attempt, both retry
loops (transcription in the orchestrator, translation in the translation
service) perform exactly 3 attempts and wait 2^k seconds after the k-th
failed attempt (k = 1, 2; waits recorded in milliseconds); the transcription
loop surfaces the last failure wrapped with the attempt count
(`Transcription failed after 3 attempts: ...`), while the translation loop
surfaces the last failure through `translationWrapMsg`, which carries no
attempt count. -/
theorem retry_policy_exhaustion (opT : Nat → Except String TranscriptionResult)
    (opW : Nat → Except String String) (text : String) (mT mW : Nat → String)
    (hT : ∀ k, opT k = .error (mT k)) (hW : ∀ k, opW k = .error (mW k)) :
    transcribeWithRetry opT
      = ⟨3, [2 ^ 1 * 1000, 2 ^ 2 * 1000],
          .error ("Transcription failed after 3 attempts: " ++ mT 2)⟩
    ∧ translateWithOpenAI opW text
      = ⟨3, [2 ^ 1 * 1000, 2 ^ 2 * 1000], .error (translationWrapMsg (mW 2))⟩ := by
  constructor
  · exact retryRun_all_fail opT _ _ (mT 0) (mT 1) (mT 2) (hT 0) (hT 1) (hT 2)
  · refine retryRun_all_fail _ _ _ (mW 0) (mW 1) (mW 2) ?_ ?_ ?_ <;>
      simp [attemptTranslate, hW 0, hW 1, hW 2]

/-- Witness for C3's amended theorem at concrete always-failing operations. -/
theorem retry_policy_exhaustion_witness :
    transcribeWithRetry (fun _ => .error "t")
      = ⟨3, [2 ^ 1 * 1000, 2 ^ 2 * 1000],
          .error ("Transcription failed after 3 attempts: " ++ "t")⟩
    ∧ translateWithOpenAI (fun _ => .error "n") "hi"
      = ⟨3, [2 ^ 1 * 1000, 2 ^ 2 * 1000], .error (translationWrapMsg "n")⟩ :=
  retry_policy_exhaustion (fun _ => .error "t") (fun _ => .error "n") "hi"
    (fun _ => "t") (fun _ => "n") (fun _ => rfl) (fun _ => rfl)

/-- C3 counterexample: the translation retry, on an operation failing every
attempt, surfaces `Failed to translate text: network error` — a message
that contains neither the attempt count `3` nor the word `attempt`, so the
claim's "wrapped with attempt count context" is false for the translation
retry. -/
theorem retry_wrap_no_attempt_count_cex :
    (translateWithOpenAI (fun _ => .error "network error") "hi").result
      = .error "Failed to translate text: network error"
    ∧ strContains "Failed to translate text: network error" "attempt" = false
    ∧ strContains "Failed to translate text: network error" "3" = false := by
  decide

/-- C4: when transcription succeeds with zero timed segments (as the
normalized provider response has when the provider returned no or an empty
segment list), a non-empty transcript and a known (non-zero) duration of D
seconds, the orchestrator synthesizes exactly one whole-file segment
spanning 0 .. D*1000 milliseconds carrying the full transcript. -/
theorem synthesize_whole_file_segment (tr : TranscriptionResult)
    (p : ProviderTranscription) (D : Nat)
    (hseg : tr.segments = []) (htext : tr.text ≠ "")
    (hdur : tr.duration = D) (hD : 0 < D)
    (hp : p.segments = none ∨ p.segments = some []) :
    computeSegments tr = [⟨0, D * 1000, tr.text⟩]
    ∧ (normalizeTranscription p).segments = [] := by
  constructor
  · unfold computeSegments
    rw [hseg, hdur]
    simp [htext, Nat.pos_iff_ne_zero.mp hD]
  · rcases hp with h | h <;> simp [normalizeTranscription, h]

/-- Witness for C4 at a concrete transcription result. -/
theorem synthesize_whole_file_segment_witness :
    (⟨"hello", 7, []⟩ : TranscriptionResult).segments = []
    ∧ computeSegments ⟨"hello", 7, []⟩ = [⟨0, 7 * 1000, "hello"⟩] :=
  ⟨rfl,
   (synthesize_whole_file_segment ⟨"hello", 7, []⟩ ⟨"hello", 7, none⟩ 7 rfl
     (by decide) rfl (by decide) (Or.inl rfl)).1⟩

/-- C5 (amended): for every (segment, translation) pair, the assembled
subtitle has `startTime = max(0, segment.start)` and
`endTime = max(segment.start, segment.end || 1000)` — a missing/zero
segment end defaults to 1000 before the max — which still guarantees
`endTime ≥ startTime`; empty text fields are replaced by the placeholder
strings `No text` / `No translation`. -/
theorem assemble_subtitle_fields (audioFileId : Nat) (segment : Segment)
    (translation : TranslationResult) :
    (assembleSubtitle audioFileId segment translation).startTime
      = max 0 segment.start
    ∧ (assembleSubtitle audioFileId segment translation).endTime
      = max segment.start (if segment.stop = 0 then 1000 else segment.stop)
    ∧ (assembleSubtitle audioFileId segment translation).startTime
      ≤ (assembleSubtitle audioFileId segment translation).endTime
    ∧ (segment.text = "" →
        (assembleSubtitle audioFileId segment translation).japaneseText = "No text")
    ∧ (segment.text ≠ "" →
        (assembleSubtitle audioFileId segment translation).japaneseText
          = segment.text)
    ∧ (translation.translatedText = "" →
        (assembleSubtitle audioFileId segment translation).englishText
          = "No translation")
    ∧ (translation.translatedText ≠ "" →
        (assembleSubtitle audioFileId segment translation).englishText
          = translation.translatedText) := by
  refine ⟨rfl, rfl, ?_, ?_, ?_, ?_, ?_⟩
  · show max 0 segment.start ≤ max segment.start _
    rw [Nat.zero_max]
    exact le_max_left _ _
  · intro h; simp [assembleSubtitle, h]
  · intro h; simp [assembleSubtitle, h]
  · intro h; simp [assembleSubtitle, h]
  · intro h; simp [assembleSubtitle, h]

/-- Witness for C5's amended theorem at a concrete pair with empty source
text. -/
theorem assemble_subtitle_fields_witness :
    ("" : String) = ""
    ∧ (assembleSubtitle 2 ⟨5, 3, ""⟩ ⟨"a", "b", 0⟩).japaneseText = "No text" :=
  ⟨rfl, (assemble_subtitle_fields 2 ⟨5, 3, ""⟩ ⟨"a", "b", 0⟩).2.2.2.1 rfl⟩

/-- C5 counterexample: for a segment whose provider end time is 0 (with
start 0), the persisted `endTime` is 1000, not
`max(segment.start, segment.end) = 0`: the `segment.end || 1000` default
makes the claim's formula false. -/
theorem assemble_subtitle_end_cex :
    (assembleSubtitle 1 ⟨0, 0, "x"⟩ ⟨"x", "y", 0⟩).endTime = 1000
    ∧ (assembleSubtitle 1 ⟨0, 0, "x"⟩ ⟨"x", "y", 0⟩).endTime
        ≠ max (Segment.start ⟨0, 0, "x"⟩) (Segment.stop ⟨0, 0, "x"⟩) := by
  decide

/-- C8: SRT export — for each subtitle in order a 1-based index line, a
zero-padded `HH:MM:SS,mmm --> HH:MM:SS,mmm` line with comma millisecond
separator, the target-language text line and a trailing newline, blocks
joined by a newline; on the two-subtitle example the output is exactly the
expected string. -/
theorem generateSRT_example :
    generateSRT
        [⟨1, 0, 1500, "a", "Hello"⟩, ⟨1, 1500, 3000, "b", "World"⟩]
      = "1\n00:00:00,000 --> 00:00:01,500\nHello\n\n2\n00:00:01,500 --> 00:00:03,000\nWorld\n" := by
  decide

/-- C9: every text longer than 4000 characters is rejected by
`translateText` with zero provider calls (`attempts = 0`) for every oracle,
and inside a batch such an item becomes the fallback result with confidence
0 and the original text embedded. -/
theorem long_text_rejected (op : Nat → Except String String) (text : String)
    (h : 4000 < text.length) :
    (translateTextRun op text).attempts = 0
    ∧ (∃ m, (translateTextRun op text).result = .error m)
    ∧ translateItem op text = fallbackResult text := by
  by_cases ht : (jsTrim text).length = 0
  · refine ⟨by simp [translateTextRun, ht],
      ⟨"Text to translate is required and cannot be empty", ?_⟩,
      by simp [translateItem, translateTextRun, ht]⟩
    simp [translateTextRun, ht]
  · refine ⟨by simp [translateTextRun, ht, h],
      ⟨"Text is too long for translation. Maximum length is 4000 characters.", ?_⟩,
      by simp [translateItem, translateTextRun, ht, h]⟩
    simp [translateTextRun, ht, h]

/-- Witness for C9 at a concrete 4001-character text. -/
theorem long_text_rejected_witness :
    4000 < bigText.length
    ∧ ((translateTextRun (fun _ => .ok "good") bigText).attempts = 0
       ∧ (∃ m, (translateTextRun (fun _ => .ok "good") bigText).result = .error m)
       ∧ translateItem (fun _ => .ok "good") bigText = fallbackResult bigText) := by
  have hlen : bigText.length = 4001 := by
    have h1 : bigText.length = (List.replicate 4001 'a').length := rfl
    rw [h1, List.length_replicate]
  have h : 4000 < bigText.length := by rw [hlen]; exact Nat.lt_succ_self 4000
  exact ⟨h, long_text_rejected (fun _ => .ok "good") bigText h⟩

/-- C7: on entry to the failed state the orchestrator attempts all four
recovery actions in order — mark the AudioFile failed, mark the job failed
with the captured error, broadcast `processing-error`, delete the transient
file if it still exists — and each action is isolated: the handler is a
total function (nothing is re-thrown), every action is attempted whatever
the other actions' throw flags are, each action's effect depends only on
its own flag, and the broadcast carries the original captured error. -/
theorem failed_state_recovery (env : Env) (e : String) (t : RunTrace) :
    (applyFailureHandler env e t).actionsAttempted
      = t.actionsAttempted
        ++ ["updateAudioFileStatus", "updateProcessingJob", "broadcastError",
            "cleanupFile"]
    ∧ (env.failUpdateFileThrows = false →
        (applyFailureHandler env e t).fileStatuses = t.fileStatuses ++ ["failed"])
    ∧ (env.failUpdateJobThrows = false →
        (env.activeJobExists || t.jobCreated) = true →
        (applyFailureHandler env e t).jobFailedErrors = t.jobFailedErrors ++ [e])
    ∧ (env.failBroadcastThrows = false →
        (applyFailureHandler env e t).broadcasts = t.broadcasts ++ [bError e])
    ∧ (env.failCleanupThrows = false → env.fileExistsAtCleanup = true →
        (applyFailureHandler env e t).unlinkAttempts = t.unlinkAttempts + 1)
    ∧ (applyFailureHandler env e t).progressWrites = t.progressWrites :=
  ⟨handler_actions env e t,
   fun h => handler_fileStatuses_ok env e t h,
   fun h hf => handler_jobErrors_ok env e t h hf,
   fun h => handler_broadcasts_ok env e t h,
   fun h hx => handler_unlink_ok env e t h hx,
   handler_progress env e t⟩

/-- Witness for C7: with the first recovery action throwing, the error
broadcast and the file cleanup still happen. -/
theorem failed_state_recovery_witness :
    envOnlyFileThrow.failBroadcastThrows = false
    ∧ (applyFailureHandler envOnlyFileThrow "boom" emptyTrace).broadcasts
      = emptyTrace.broadcasts ++ [bError "boom"]
    ∧ (applyFailureHandler envOnlyFileThrow "boom" emptyTrace).unlinkAttempts
      = emptyTrace.unlinkAttempts + 1 :=
  ⟨rfl,
   (failed_state_recovery envOnlyFileThrow "boom" emptyTrace).2.2.2.1 rfl,
   (failed_state_recovery envOnlyFileThrow "boom" emptyTrace).2.2.2.2.1 rfl rfl⟩

/-- Helper: every exit of the pipeline body leaves a progress-write list
that is a take-front of the milestone list, and the successful exit leaves
the full list. -/
theorem runMain_progress (env : Env) (audioFileId : Nat) (filePath : String) :
    (∃ k, (runMain env audioFileId filePath).1.progressWrites
      = [0, 50, 60, 80, 100].take k)
    ∧ ((runMain env audioFileId filePath).2 = none →
        (runMain env audioFileId filePath).1.progressWrites
          = [0, 50, 60, 80, 100]) := by
  unfold runMain
  dsimp only
  repeat' split
  all_goals
    first
      | exact ⟨⟨0, rfl⟩, by simp⟩
      | exact ⟨⟨1, rfl⟩, by simp⟩
      | exact ⟨⟨3, rfl⟩, by simp⟩
      | exact ⟨⟨4, rfl⟩, by simp⟩
      | exact ⟨⟨5, rfl⟩, by simp⟩

/-- C1: over any environment, the progress values written during a
`processAudioFile` run form a take-front of `[0, 50, 60, 80, 100]` (so a
failure truncates but never lowers them), the sequence is non-decreasing,
and a successful run (no thrown error) writes exactly all five milestones
in order. -/
theorem progress_milestones (env : Env) (audioFileId : Nat) (filePath : String) :
    (∃ k, (processAudioFile env audioFileId filePath).progressWrites
      = [0, 50, 60, 80, 100].take k)
    ∧ ((runMain env audioFileId filePath).2 = none →
        (processAudioFile env audioFileId filePath).progressWrites
          = [0, 50, 60, 80, 100])
    ∧ List.Chain' (· ≤ ·)
        (processAudioFile env audioFileId filePath).progressWrites := by
  have h := runMain_progress env audioFileId filePath
  have hp : (processAudioFile env audioFileId filePath).progressWrites
      = (runMain env audioFileId filePath).1.progressWrites := by
    unfold processAudioFile
    rcases hr : runMain env audioFileId filePath with ⟨t, e⟩
    cases e with
    | none => rfl
    | some m => exact handler_progress env m t
  refine ⟨?_, ?_, ?_⟩
  · rw [hp]; exact h.1
  · intro hnone; rw [hp]; exact h.2 hnone
  · rcases h.1 with ⟨k, hk⟩
    rw [hp, hk]
    exact List.Chain'.take (by simp [List.chain'_cons]) k

/-- Witness for C1 at a concrete all-success environment. -/
theorem progress_milestones_witness :
    (runMain envHappy 1 "uploads/a").2 = none
    ∧ (processAudioFile envHappy 1 "uploads/a").progressWrites
      = [0, 50, 60, 80, 100] :=
  ⟨by decide, (progress_milestones envHappy 1 "uploads/a").2.1 (by decide)⟩

/-- C6 (amended): on entry to the completed state (the 100% milestone was
written) the orchestrator attempts the transient-file deletion
unconditionally — but the deletion sits inside the pipeline's `try` block,
so a deletion failure IS handled as a pipeline failure: the thrown
file-system error reaches the `catch` handler, the AudioFile's last status
write becomes `failed`, the job is re-marked failed with the deletion error
as its error message, and a `processing-error` event is broadcast. -/
theorem completed_cleanup_amended (env : Env) (audioFileId : Nat)
    (filePath : String) (t : RunTrace) (err : Option String)
    (hrun : runMain env audioFileId filePath = (t, err))
    (hreach : 100 ∈ t.progressWrites) :
    1 ≤ t.unlinkAttempts
    ∧ (env.unlinkFails = true → err = some env.unlinkError)
    ∧ (env.unlinkFails = true → env.failUpdateFileThrows = false →
        (processAudioFile env audioFileId filePath).fileStatuses.getLast?
          = some "failed")
    ∧ (env.unlinkFails = true → env.failUpdateJobThrows = false →
        (processAudioFile env audioFileId filePath).jobFailedErrors
          = t.jobFailedErrors ++ [env.unlinkError])
    ∧ (env.unlinkFails = true → env.failBroadcastThrows = false →
        "processing-error"
          ∈ (processAudioFile env audioFileId filePath).broadcasts.map (·.type)) := by
  have hC : 1 ≤ t.unlinkAttempts
      ∧ t.jobCreated = true
      ∧ (env.unlinkFails = true → err = some env.unlinkError) := by
    unfold runMain at hrun
    dsimp only at hrun
    repeat' split at hrun
    all_goals (injection hrun with h1 h2; subst h1; subst h2)
    all_goals
      first
        | exact ⟨Nat.le.refl, rfl, fun _ => rfl⟩
        | (refine ⟨Nat.le.refl, rfl, fun h => ?_⟩; exact absurd h (by assumption))
        | (exfalso; revert hreach; simp [emptyTrace])
  refine ⟨hC.1, hC.2.2, ?_, ?_, ?_⟩
  · intro hu hf
    have he : err = some env.unlinkError := hC.2.2 hu
    unfold processAudioFile
    rw [hrun, he]
    exact (handler_fileStatuses_ok env _ t hf) ▸ List.getLast?_concat _
  · intro hu hj
    have he : err = some env.unlinkError := hC.2.2 hu
    unfold processAudioFile
    rw [hrun, he]
    exact handler_jobErrors_ok env _ t hj (by rw [hC.2.1]; exact Bool.or_true _)
  · intro hu hb
    have he : err = some env.unlinkError := hC.2.2 hu
    unfold processAudioFile
    rw [hrun, he]
    rw [show (applyFailureHandler env env.unlinkError t).broadcasts
        = t.broadcasts ++ [bError env.unlinkError] from
      handler_broadcasts_ok env _ t hb]
    simp [bError]

/-- Witness for C6's amended theorem at a concrete environment where every
stage succeeds and the deletion throws. -/
theorem completed_cleanup_amended_witness :
    100 ∈ (runMain envHappyUnlinkFail 1 "uploads/a").1.progressWrites
    ∧ (processAudioFile envHappyUnlinkFail 1 "uploads/a").jobFailedErrors
      = (runMain envHappyUnlinkFail 1 "uploads/a").1.jobFailedErrors
        ++ [envHappyUnlinkFail.unlinkError]
    ∧ "processing-error"
      ∈ (processAudioFile envHappyUnlinkFail 1 "uploads/a").broadcasts.map (·.type) := by
  have h := completed_cleanup_amended envHappyUnlinkFail 1 "uploads/a"
    (runMain envHappyUnlinkFail 1 "uploads/a").1
    (runMain envHappyUnlinkFail 1 "uploads/a").2
    Prod.mk.eta.symm (by decide)
  exact ⟨by decide, h.2.2.2.1 rfl rfl, h.2.2.2.2 rfl rfl⟩

/-- C6 counterexample: with every stage succeeding and the final
`fs.unlinkSync` throwing, the AudioFile's status writes end in `failed`
(after `completed`), the job is re-marked failed with the deletion error
recorded as its error message, a `processing-error` is broadcast, and the
job had reached the 100% milestone — so the deletion failure is NOT treated
as a non-failure as the claim states. -/
theorem completed_cleanup_cex :
    (processAudioFile envHappyUnlinkFail 1 "uploads/a").fileStatuses
      = ["transcribing", "completed", "failed"]
    ∧ (processAudioFile envHappyUnlinkFail 1 "uploads/a").jobFailedErrors
      = ["EACCES: permission denied, unlink"]
    ∧ "processing-error"
      ∈ (processAudioFile envHappyUnlinkFail 1 "uploads/a").broadcasts.map (·.type)
    ∧ 100 ∈ (processAudioFile envHappyUnlinkFail 1 "uploads/a").progressWrites := by
  decide

/-- C2: `translateBatch` on n ≥ 1 non-blank texts produces exactly n
results in input order, each carrying its original text; an item whose
translation permanently fails becomes the fallback result (confidence 0,
original text embedded in the translated text); the batch returns the
results whenever some result has confidence above 0, and throws exactly
when no result does. -/
theorem translateBatch_spec (op : Nat → Nat → Except String String)
    (texts : List String) (h1 : texts ≠ [])
    (h2 : ∀ t ∈ texts, jsTrim t ≠ "") :
    (batchResults op texts).length = texts.length
    ∧ (batchResults op texts).map (·.originalText) = texts
    ∧ (∀ i, (batchResults op texts).get? i
        = (texts.get? i).map fun t => translateItem (op i) t)
    ∧ (∀ i t m, texts.get? i = some t →
        (translateTextRun (op i) t).result = .error m →
        (batchResults op texts).get? i = some (fallbackResult t))
    ∧ ((∃ r ∈ batchResults op texts, 0 < r.confidence) →
        translateBatch op texts = .ok (batchResults op texts))
    ∧ ((∀ r ∈ batchResults op texts, ¬ 0 < r.confidence) →
        translateBatch op texts
          = .error "All translations failed. Please check your OpenAI API key and quota.") := by
  have hfilter : texts.filter (fun t => jsTrim t != "") = texts := by
    rw [List.filter_eq_self]
    intro a ha
    simpa using h2 a ha
  have hne : texts.isEmpty = false := by
    cases texts with
    | nil => exact absurd rfl h1
    | cons a l => rfl
  have hvne : (texts.filter fun t => jsTrim t != "").isEmpty = false := by
    rw [hfilter]; exact hne
  refine ⟨batchResults_length op texts, batchResults_map_originalText op texts,
    ?_, ?_, ?_, ?_⟩
  · intro i; exact batchResults_get? op texts i
  · intro i t m hti hres
    rw [batchResults_get? op texts i, hti]
    simp [translateItem, hres]
  · intro hex
    have hsucc : ((batchResults op texts).filter
        fun t => decide (0 < t.confidence)).isEmpty = false := by
      cases hfl : (batchResults op texts).filter
          fun t => decide (0 < t.confidence) with
      | nil =>
        obtain ⟨r, hr, hc⟩ := hex
        have := List.filter_eq_nil_iff.mp hfl r hr
        simp [hc] at this
      | cons a l => rfl
    unfold translateBatch
    simp [hne, hfilter, hsucc]
  · intro hall
    have hfail : ((batchResults op texts).filter
        fun t => decide (0 < t.confidence)) = [] :=
      List.filter_eq_nil_iff.mpr fun r hr => by simpa using hall r hr
    unfold translateBatch
    simp [hne, hfilter, hfail]

/-- Witness for C2 at two concrete texts: the first item succeeds, the
second permanently fails and becomes the fallback result. -/
theorem translateBatch_spec_witness :
    (["a", "b"] : List String) ≠ []
    ∧ (∀ t ∈ (["a", "b"] : List String), jsTrim t ≠ "")
    ∧ (batchResults wOp ["a", "b"]).map (·.originalText) = ["a", "b"]
    ∧ translateBatch wOp ["a", "b"] = .ok (batchResults wOp ["a", "b"])
    ∧ batchResults wOp ["a", "b"]
      = [⟨"a", "x", conf095⟩, ⟨"b", "[Translation failed: b]", 0⟩] := by
  have h := translateBatch_spec wOp ["a", "b"] (by decide) (by decide)
  exact ⟨by decide, by decide, h.2.1, h.2.2.2.2.1 (by decide), by decide⟩

/-- C10: each in-memory store update (`updateAudioFileStatus`,
`updateSubtitle`, `updateProcessingJob`) called with an identifier not in
the store completes without error and leaves the whole store unchanged. -/
theorem update_missing_id_noop (s : MemStorage) (id : Nat) (status : String)
    (sp : SubtitlePatch) (jp : ProcessingJobPatch) (now : Nat) :
    (s.audioFiles.lookup id = none → updateAudioFileStatus s id status = s)
    ∧ (s.subtitles.lookup id = none → updateSubtitle s id sp = s)
    ∧ (s.processingJobs.lookup id = none → updateProcessingJob s id jp now = s) := by
  refine ⟨?_, ?_, ?_⟩ <;> intro h <;>
    simp [updateAudioFileStatus, updateSubtitle, updateProcessingJob, h]

/-- Witness for C10 at the empty store. -/
theorem update_missing_id_noop_witness :
    ((⟨[], [], [], 1, 1, 1⟩ : MemStorage).audioFiles.lookup 5 = none)
    ∧ updateAudioFileStatus ⟨[], [], [], 1, 1, 1⟩ 5 "failed" = ⟨[], [], [], 1, 1, 1⟩ :=
  ⟨rfl,
   (update_missing_id_noop ⟨[], [], [], 1, 1, 1⟩ 5 "failed"
     ⟨none, none, none, none⟩ ⟨none, none, none, none⟩ 0).1 rfl⟩

end JSub
